import Mathlib

/-!
Shallow embedding of the Quest-for-Craves core in Lean 4.

Python floats are modelled by the rationals: every constant appearing in the
formulas (0.1, 0.05, 1.0, the clamp bounds) and every arithmetic operation
(sums, means, divisions, max, min, comparisons) is exact at these magnitudes,
so the rational model tracks the source arithmetic faithfully on the inputs
the claims quantify over.

Sources embedded here:
  - src/CraveQuest/src/constants.py   (SCORE_LEVELS, CLEANUP_LEVELS key order)
  - src/CraveQuest/src/models/recipe.py (Recipe, add_feedback, calculate_value,
    has_allergy_or_dislike)
  - src/CraveQuest/src/models/user.py (User, adjust_coefficients)
  - src/CraveQuest/src/cli.py (the choice "3" suggestion branch)
  - src/CraveQuest/src/scraper.py (extract_recipe_data, scrape_recipe servings)
  - src/recipe_value_system/services/scraping/recipe_quality.py
    (RecipeQualityAnalyzer and its six sub-checks)
  - src/recipe_value_system/services/scraping/cooking_data.py
    (validity helpers and vocabularies)
-/

/-- Keys of the SCORE_LEVELS dict of src/CraveQuest/src/constants.py, in the
insertion order that list(SCORE_LEVELS.keys()) produces. -/
def scoreKeys : List String :=
  ["Hate", "Don\x27t Like", "Meh", "Like", "Love", "Crave", "Legendary"]

/-- Keys of the CLEANUP_LEVELS dict of src/CraveQuest/src/constants.py, in
insertion order. -/
def cleanupKeys : List String :=
  ["None", "Light", "Moderate", "Heavy"]

/-- The five-entry coefficients dict of User.__init__ (user.py). The dict
always holds exactly these five keys, so it is embedded as a record. -/
structure Coeffs where
  C_taste : ℚ
  C_risk : ℚ
  C_time : ℚ
  C_effort : ℚ
  C_sacrifice : ℚ
deriving Repr, DecidableEq

/-- The all-ones coefficients that User.__init__ installs. -/
def Coeffs.default : Coeffs :=
  { C_taste := 1, C_risk := 1, C_time := 1, C_effort := 1, C_sacrifice := 1 }

/-- User profile, from User.__init__ in src/CraveQuest/src/models/user.py. -/
structure User where
  cook_ability : String := "Home Cook"
  novelty_push : ℚ := 1/2
  nostalgia_sensitivity : ℚ := 1/2
  allergies : List String := []
  likes : List String := []
  dislikes : List String := []
  coefficients : Coeffs := Coeffs.default
deriving Repr

/-- Recipe record, from Recipe.__init__ in src/CraveQuest/src/models/recipe.py.
The last_made timestamp is modelled at day granularity (an integer day number),
matching the day-level test (datetime.now() - last_made).days that the CLI
suggestion branch applies to it. difficulty is a stored attribute, set to
len(steps) / 2 by the constructor (see Recipe.make below). -/
structure Recipe where
  name : String
  ingredients : List String
  steps : List String
  prep_time : ℕ
  cook_time : ℕ
  servings : ℕ
  owner : String := "Unknown"
  votes : List String := []
  cleanups : List String := []
  last_made : Option ℤ := none
  made_count : ℕ := 0
  difficulty : ℚ := 0
deriving Repr, DecidableEq

/-- Recipe constructor: Recipe.__init__ sets difficulty = len(steps) / 2 and
starts with empty feedback lists. -/
def Recipe.make (name : String) (ingredients steps : List String)
    (prep_time cook_time servings : ℕ) (owner : String := "Unknown") : Recipe :=
  { name := name, ingredients := ingredients, steps := steps,
    prep_time := prep_time, cook_time := cook_time, servings := servings,
    owner := owner, votes := [], cleanups := [], last_made := none,
    made_count := 0, difficulty := (steps.length : ℚ) / 2 }

/-- Recipe.add_feedback (recipe.py lines 25-31), embedded as explicit state
passing: the result pairs the post-call recipe state with the raised
ValueError message, if any. In the source both membership checks run before
either append, so a raised ValueError leaves votes and cleanups untouched;
the embedding mirrors that ordering by returning the unchanged recipe on the
two error paths. -/
def Recipe.add_feedback (r : Recipe) (taste cleanup : String) :
    Recipe × Option String :=
  if taste ∉ scoreKeys then
    (r, some ("Taste must be one of the SCORE_LEVELS keys"))
  else if cleanup ∉ cleanupKeys then
    (r, some ("Cleanup must be one of the CLEANUP_LEVELS keys"))
  else
    ({ r with votes := r.votes ++ [taste],
              cleanups := r.cleanups ++ [cleanup] }, none)

/-- skill_map.get(user.cook_ability, 2) from calculate_value (recipe.py line
44-45): a dict lookup with default 2 for any unrecognized ability string. -/
def skill_map (ability : String) : ℚ :=
  if ability = "Beginner" then 4
  else if ability = "Home Cook" then 2
  else if ability = "Chef" then 1
  else 2

/-- taste_avg of calculate_value: mean over votes of 1-based SCORE_LEVELS key
index. List.indexOf returns the list length for a string outside scoreKeys
where Python .index would raise; every vote stored through add_feedback is a
member, and theorems that depend on the index carry that membership. -/
def Recipe.taste_avg (r : Recipe) : ℚ :=
  (r.votes.map (fun v => (scoreKeys.indexOf v : ℚ) + 1)).sum / r.votes.length

/-- cleanup_avg of calculate_value: mean over cleanups of 1-based
CLEANUP_LEVELS key index. -/
def Recipe.cleanup_avg (r : Recipe) : ℚ :=
  (r.cleanups.map (fun c => (cleanupKeys.indexOf c : ℚ) + 1)).sum
    / r.cleanups.length

/-- familiarity = max(1, 4 - made_count) (recipe.py line 46). -/
def Recipe.familiarity (r : Recipe) : ℚ :=
  max 1 (4 - (r.made_count : ℚ))

/-- risk = max(1, min(4, (skill + min(4, difficulty/2) + familiarity - 1)/3))
(recipe.py line 47). -/
def Recipe.risk (r : Recipe) (u : User) : ℚ :=
  max 1 (min 4 ((skill_map u.cook_ability + min 4 (r.difficulty / 2)
    + r.familiarity - 1) / 3))

/-- time_per_serving = (prep_time + cook_time) / servings (recipe.py line 49). -/
def Recipe.time_per_serving (r : Recipe) : ℚ :=
  ((r.prep_time : ℚ) + (r.cook_time : ℚ)) / (r.servings : ℚ)

/-- The chained conditional of recipe.py line 50 bucketing time_per_serving
into 1, 2, 3 or 4. -/
def Recipe.time (r : Recipe) : ℚ :=
  if r.time_per_serving ≤ 20 then 1
  else if r.time_per_serving ≤ 45 then 2
  else if r.time_per_serving ≤ 90 then 3
  else 4

/-- step_factor = min(4, len(steps) / 3) (recipe.py line 52). -/
def Recipe.step_factor (r : Recipe) : ℚ :=
  min 4 ((r.steps.length : ℚ) / 3)

/-- effort = max(1, min(4, (step_factor + cleanup_avg - 1) / 2)) (line 53). -/
def Recipe.effort (r : Recipe) : ℚ :=
  max 1 (min 4 ((r.step_factor + r.cleanup_avg - 1) / 2))

/-- ingred_factor = min(4, len(ingredients) / servings / 2) (line 55). -/
def Recipe.ingred_factor (r : Recipe) : ℚ :=
  min 4 ((r.ingredients.length : ℚ) / (r.servings : ℚ) / 2)

/-- sacrifice = max(1, ingred_factor) (recipe.py line 56). -/
def Recipe.sacrifice (r : Recipe) : ℚ :=
  max 1 r.ingred_factor

/-- denominator of calculate_value (recipe.py lines 58-59). -/
def Recipe.denominator (r : Recipe) (u : User) : ℚ :=
  (u.coefficients.C_risk * r.risk u) * (u.coefficients.C_time * r.time)
    * (u.coefficients.C_effort * r.effort)
    * (u.coefficients.C_sacrifice * r.sacrifice)

/-- Recipe.calculate_value (recipe.py lines 37-60): 0.0 when votes is empty,
otherwise the coefficient-weighted taste mean over the denominator. -/
def Recipe.calculate_value (r : Recipe) (u : User) : ℚ :=
  if r.votes = [] then 0
  else (u.coefficients.C_taste * r.taste_avg) / r.denominator u

/-- Decidable check that one character list occurs contiguously inside
another, used to embed the Python substring operator. -/
def listLeads : List Char → List Char → Bool
  | [], _ => true
  | _ :: _, [] => false
  | a :: as, b :: bs => a == b && listLeads as bs

/-- Worker for strContains: tries a leading match at every suffix of hay. -/
def strContainsGo (needle : List Char) : List Char → Bool
  | [] => needle.isEmpty
  | c :: tl => listLeads needle (c :: tl) || strContainsGo needle tl

/-- Python substring containment needle in hay over strings. -/
def strContains (hay needle : String) : Bool :=
  strContainsGo needle.toList hay.toList

/-- Recipe.has_allergy_or_dislike (recipe.py lines 62-65): case-insensitive
substring search of each allergy and dislike in the space-joined ingredient
text. -/
def Recipe.has_allergy_or_dislike (r : Recipe) (u : User) : Bool :=
  let ingredients_lower := (String.intercalate " " r.ingredients).toLower
  u.allergies.any (fun a => strContains ingredients_lower a.toLower) ||
    u.dislikes.any (fun d => strContains ingredients_lower d.toLower)

/-- total_time of adjust_coefficients (user.py line 57): despite the name it
is the per-serving time. -/
def adjust_total_time (r : Recipe) : ℚ :=
  ((r.prep_time : ℚ) + (r.cook_time : ℚ)) / (r.servings : ℚ)

/-- The statement at user.py lines 62-63: lower C_time by 0.1 with a 0.1
floor when per-serving time exceeds 45. -/
def adjustTimeStep (r : Recipe) (c : Coeffs) : Coeffs :=
  if adjust_total_time r > 45 then
    { c with C_time := max (1/10) (c.C_time - 1/10) }
  else c

/-- The statement at user.py lines 64-65: lower C_effort by 0.1 with a 0.1
floor when the step count exceeds 10. -/
def adjustEffortStep (r : Recipe) (c : Coeffs) : Coeffs :=
  if r.steps.length > 10 then
    { c with C_effort := max (1/10) (c.C_effort - 1/10) }
  else c

/-- The statement at user.py lines 66-67: lower C_sacrifice by 0.1 with a
0.1 floor when ingredients per serving exceed 5. -/
def adjustSacrificeStep (r : Recipe) (c : Coeffs) : Coeffs :=
  if (r.ingredients.length : ℚ) / (r.servings : ℚ) > 5 then
    { c with C_sacrifice := max (1/10) (c.C_sacrifice - 1/10) }
  else c

/-- The unconditional closing statement of the low-taste branch (user.py
line 68): lower C_taste by 0.05 with a 0.1 floor. -/
def adjustTasteDownStep (c : Coeffs) : Coeffs :=
  { c with C_taste := max (1/10) (c.C_taste - 1/20) }

/-- The taste conditional of adjust_coefficients (user.py lines 61-70):
below Like runs the three threshold checks then the taste cut, above Love
raises C_taste by 0.05 with a 1.0 cap, and Like or Love leaves the
coefficients alone. -/
def adjustTasteBranch (r : Recipe) (taste_idx : ℕ) (c : Coeffs) : Coeffs :=
  if taste_idx < 3 then
    adjustTasteDownStep (adjustSacrificeStep r (adjustEffortStep r
      (adjustTimeStep r c)))
  else if taste_idx > 4 then
    { c with C_taste := min 1 (c.C_taste + 1/20) }
  else c

/-- The cleanup conditional of adjust_coefficients (user.py lines 72-73):
above Light lowers C_effort by 0.1 with a 0.1 floor. -/
def adjustCleanupStep (cleanup_idx : ℕ) (c : Coeffs) : Coeffs :=
  if cleanup_idx > 1 then
    { c with C_effort := max (1/10) (c.C_effort - 1/10) }
  else c

/-- User.adjust_coefficients (user.py lines 53-73), returning the updated
profile instead of mutating in place: the taste conditional runs on the
stored coefficients, then the cleanup conditional runs on its result, each
step named above after the statement of the source it embeds. -/
def User.adjust_coefficients (u : User) (r : Recipe)
    (taste_rank cleanup_rank : String) : User :=
  { u with coefficients :=
      (adjustCleanupStep (cleanupKeys.indexOf cleanup_rank)
        (adjustTasteBranch r (scoreKeys.indexOf taste_rank)
          u.coefficients)) }

/-- Recency filter of the CLI suggestion branch (cli.py line 311): a recipe
passes when last_made is unset or more than 7 days old. Timestamps are day
numbers, so (now - t) is the .days value of the Python timedelta. -/
def recency_ok (now : ℤ) (r : Recipe) : Bool :=
  match r.last_made with
  | none => true
  | some t => now - t > 7

/-- The key function of max(options, key=...) in cli.py line 316: the
calculated value for recipes with at least one vote, 0 otherwise. -/
def suggestion_key (u : User) (r : Recipe) : ℚ :=
  if r.votes ≠ [] then r.calculate_value u else 0

/-- Python max over a non-empty list with a key function: scans left to
right and replaces the current best only on a strictly larger key, so the
first-encountered maximum wins. -/
def maxByKey (u : User) : List Recipe → Option Recipe
  | [] => none
  | r :: tl =>
      some (tl.foldl
        (fun best x => if suggestion_key u x > suggestion_key u best then x
                       else best) r)

/-- The choice "3" suggestion branch of cli.py lines 307-319: filter by
recency and by allergy/dislike, then pick the maximum-value survivor; none
models both the empty candidate list and the empty survivor list, where the
CLI prints a no-suggestion message instead of a pick. -/
def selectBest (recipes : List Recipe) (u : User) (now : ℤ) : Option Recipe :=
  maxByKey u
    (recipes.filter
      (fun r => recency_ok now r && ! r.has_allergy_or_dislike u))

/-- Value of the recipeYield JSON field reaching extract_recipe_data
(scraper.py line 80): JSON-LD supplies either a number or free text, and the
source stores whichever it finds without parsing or clamping. -/
inductive YieldValue where
  | num : ℤ → YieldValue
  | txt : String → YieldValue
deriving Repr, DecidableEq

/-- Python str.strip and whitespace class of re \s, ASCII range. -/
def isPyWs (c : Char) : Bool :=
  c = ' ' || c = '\t' || c = '\n' || c = '\r' || c = '\x0b' || c = '\x0c'

/-- Worker for collapseWs: the flag records whether the previous kept
character was the space standing for a whitespace run. -/
def collapseWsGo : Bool → List Char → List Char
  | _, [] => []
  | prevWs, c :: tl =>
      if isPyWs c then
        if prevWs then collapseWsGo true tl
        else ' ' :: collapseWsGo true tl
      else c :: collapseWsGo false tl

/-- re.sub of one or more whitespace characters by a single space. -/
def collapseWs (s : String) : String :=
  String.mk (collapseWsGo false s.toList)

/-- Python str.strip: drop leading and trailing whitespace. -/
def pyStrip (s : String) : String :=
  String.mk
    (((s.toList.dropWhile isPyWs).reverse.dropWhile isPyWs).reverse)

/-- clean_text of scraper.py lines 62-64: strip, collapse whitespace runs to
single spaces, and delete the literal Advertisement marker. -/
def clean_text (s : String) : String :=
  (collapseWs (pyStrip s)).replace ("Advertisement") ("")

/-- The fields of the JSON-LD object that extract_recipe_data consults. The
prepTime and cookTime strings and the list-of-objects unwrapping are plumbing
not consulted by any claim and are left out of the record. -/
structure JsonLDRecipe where
  atType : Option String := none
  name : Option String := none
  recipeIngredient : List String := []
  recipeInstructions : List String := []
  recipeYield : Option YieldValue := none
deriving Repr

/-- The dict that extract_recipe_data builds (scraper.py lines 73-81),
restricted to the fields the claims consult. -/
structure ScrapedData where
  name : String
  ingredients : List String
  steps : List String
  servings : YieldValue
deriving Repr, DecidableEq

/-- extract_recipe_data (scraper.py lines 66-81): requires an object of type
Recipe, cleans the text fields, and takes servings from
data.get(recipeYield, 4) - the scraped value, when present, is passed through
unchanged, with no parsing and no floor. -/
def extract_recipe_data (data : Option JsonLDRecipe) : Option ScrapedData :=
  match data with
  | none => none
  | some d =>
      if d.atType ≠ some ("Recipe") then none
      else
        some { name := clean_text (d.name.getD ("Unknown Recipe")),
               ingredients := d.recipeIngredient.map clean_text,
               steps := d.recipeInstructions.map clean_text,
               servings := d.recipeYield.getD (YieldValue.num 4) }

/-- Numeric value of a run of decimal digit characters. -/
def digitsToNat (ds : List Char) : ℕ :=
  ds.foldl (fun n c => 10 * n + (c.toNat - 48)) 0

/-- First maximal digit run in a character list, as re.search of one or more
digits followed by int() does in the source; none when no digit occurs. -/
def firstNumber : List Char → Option ℕ
  | [] => none
  | c :: tl =>
      if c.isDigit then some (digitsToNat (c :: tl.takeWhile Char.isDigit))
      else firstNumber tl

/-- The HTML-fallback servings scan of scrape_recipe (scraper.py lines
196-206): servings starts at 4; the first serving-related element text that
contains a number overwrites it and the loop breaks; no floor is applied. -/
def html_servings : List String → ℕ
  | [] => 4
  | t :: ts =>
      match firstNumber t.toList with
      | some n => n
      | none => html_servings ts

/-- Flattened ALL_INGREDIENTS set of cooking_data.py (lines 4-79, flattened
at lines 134-137), listed in source order. Membership is only ever used
through an any-substring scan, so the Python set is embedded as a list. -/
def ALL_INGREDIENTS : List String :=
  ["all-purpose flour", "bread flour", "cake flour", "whole wheat flour",
   "self-rising flour", "white rice", "brown rice", "jasmine rice",
   "basmati rice", "arborio rice", "spaghetti", "penne", "fettuccine",
   "linguine", "macaroni", "quinoa", "oats", "cornmeal", "breadcrumbs",
   "whole milk", "skim milk", "2% milk", "buttermilk", "heavy cream",
   "half-and-half", "cheddar", "mozzarella", "parmesan", "cream cheese",
   "ricotta", "butter", "yogurt", "sour cream", "eggs", "chicken", "beef",
   "pork", "turkey", "lamb", "salmon", "tuna", "shrimp", "cod", "tilapia",
   "tofu", "tempeh", "seitan", "lentils", "chickpeas", "onion", "garlic",
   "carrot", "celery", "bell pepper", "tomato", "potato", "broccoli",
   "spinach", "lettuce", "cucumber", "zucchini", "apple", "banana",
   "orange", "lemon", "lime", "strawberry", "blueberry", "raspberry",
   "grape", "pineapple", "mango", "avocado", "basil", "parsley", "cilantro",
   "thyme", "rosemary", "oregano", "mint"]

/-- EQUIPMENT list of cooking_data.py lines 82-103. -/
def ALL_EQUIPMENT : List String :=
  ["oven", "stove", "microwave", "blender", "food processor", "mixer",
   "knife", "cutting board", "measuring cups", "measuring spoons", "pot",
   "pan", "baking sheet", "baking dish", "bowl", "whisk", "spatula",
   "spoon", "colander", "grater"]

/-- COOKING_METHODS list of cooking_data.py lines 106-122. -/
def ALL_COOKING_METHODS : List String :=
  ["bake", "broil", "grill", "roast", "fry", "sauté", "simmer", "boil",
   "steam", "poach", "braise", "stir-fry", "deep-fry", "blanch", "reduce"]

/-- TEMPERATURE_RANGES of cooking_data.py lines 125-131, in Fahrenheit. -/
def TEMPERATURE_RANGES : List (ℤ × ℤ) :=
  [(170, 250), (251, 300), (301, 375), (376, 450), (451, 550)]

/-- normalize_unit of cooking_data.py lines 143-159: lowercase, strip, then
a dict lookup that falls back to the input itself; the function is total and
never yields the Python None that its caller tests against. -/
def normalize_unit (u : String) : String :=
  let unit := pyStrip u.toLower
  if unit = "tbsp" then "tablespoon"
  else if unit = "tbs" then "tablespoon"
  else if unit = "tsp" then "teaspoon"
  else if unit = "oz" then "ounce"
  else if unit = "lb" then "pound"
  else if unit = "c" then "cup"
  else if unit = "g" then "gram"
  else if unit = "kg" then "kilogram"
  else if unit = "ml" then "milliliter"
  else if unit = "l" then "liter"
  else unit

/-- is_valid_temperature of cooking_data.py lines 162-164. -/
def is_valid_temperature (t : ℤ) : Bool :=
  TEMPERATURE_RANGES.any (fun p => p.1 ≤ t && t ≤ p.2)

/-- is_valid_time of cooking_data.py lines 167-169. The signature takes the
minutes alone; the category string that _check_timing_validity tries to pass
is not a parameter of this function. -/
def is_valid_time (minutes : ℤ) : Bool :=
  0 < minutes && minutes < 1440

/-- is_valid_serving_size of cooking_data.py lines 172-174. -/
def is_valid_serving_size (servings : ℤ) : Bool :=
  1 ≤ servings && servings ≤ 100

/-- Ingredient dataclass of recipe_quality.py lines 42-50. -/
structure QIngredient where
  name : String
  amount : Option ℚ := none
  unit : Option String := none
  notes : Option String := none
  preparation : Option String := none
deriving Repr

/-- Instruction dataclass of recipe_quality.py lines 53-61. -/
structure QInstruction where
  text : String
  duration : Option ℤ := none
  temperature : Option ℤ := none
  equipment : List String := []
  ingredients : List String := []
deriving Repr

/-- RecipeYield dataclass of recipe_quality.py lines 64-70. -/
structure QYield where
  servings : ℤ
  unit : String := "servings"
  notes : Option String := none
deriving Repr

/-- The Recipe dataclass of recipe_quality.py lines 83-109, restricted to
the fields that analyze_recipe reads (title, ingredients, instructions,
yields, prep_time, cook_time, total_time); the remaining fields are
presentation metadata never consulted by the analyzer. -/
structure QRecipe where
  title : String
  ingredients : List QIngredient := []
  instructions : List QInstruction := []
  yields : Option QYield := none
  prep_time : Option ℤ := none
  cook_time : Option ℤ := none
  total_time : Option ℤ := none
deriving Repr

/-- RecipeMetrics dataclass of recipe_quality.py lines 19-29. -/
structure RecipeMetrics where
  completeness_score : ℚ := 0
  instruction_clarity : ℚ := 0
  ingredient_validity : ℚ := 0
  timing_validity : ℚ := 0
  temperature_validity : ℚ := 0
  portion_consistency : ℚ := 0
  overall_quality : ℚ := 0
deriving Repr, DecidableEq

/-- _check_completeness (recipe_quality.py lines 152-166): weighted presence
checks with the ingredient and instruction weights scaled by count over 3. -/
def check_completeness (r : QRecipe) : ℚ :=
  (if r.title ≠ "" then 1/10 else 0)
    + (if ! r.ingredients.isEmpty then
        (4/10) * min 1 ((r.ingredients.length : ℚ) / 3) else 0)
    + (if ! r.instructions.isEmpty then
        (4/10) * min 1 ((r.instructions.length : ℚ) / 3) else 0)
    + (if r.yields.isSome then 1/10 else 0)

/-- Per-step score of _check_instruction_clarity (lines 174-194): three
boolean signals averaged; a step with empty text is skipped by continue and
contributes zero. -/
def instruction_step_score (i : QInstruction) : ℚ :=
  let text := i.text.toLower
  if text = "" then 0
  else
    let has_method := ALL_COOKING_METHODS.any (fun m => strContains text m)
    let has_timing := i.duration.isSome ||
      (["minute", "hour", "until", "when"].any (fun w => strContains text w))
    let has_equipment := ! i.equipment.isEmpty ||
      (ALL_EQUIPMENT.any (fun e => strContains text e))
    ((if has_method then 1 else 0) + (if has_timing then 1 else 0)
      + (if has_equipment then 1 else 0)) / 3

/-- _check_instruction_clarity (recipe_quality.py lines 168-196). -/
def check_instruction_clarity (r : QRecipe) : ℚ :=
  if r.instructions.isEmpty then 0
  else min 1 ((r.instructions.map instruction_step_score).sum
    / (r.instructions.length : ℚ))

/-- Per-ingredient validity of _check_ingredient_validity (lines 203-218):
a recognized name substring plus a present amount and unit. The source also
tests normalize_unit of the unit against None, which always passes because
normalize_unit returns a string for every input. -/
def ingredient_is_valid (ing : QIngredient) : Bool :=
  let name_valid :=
    ALL_INGREDIENTS.any (fun known => strContains ing.name.toLower known)
  let measurement_valid :=
    ing.amount.isSome &&
      (match ing.unit with
       | none => false
       | some u => (some (normalize_unit u)).isSome)
  name_valid && measurement_valid

/-- _check_ingredient_validity (recipe_quality.py lines 198-220). -/
def check_ingredient_validity (r : QRecipe) : ℚ :=
  if r.ingredients.isEmpty then 0
  else ((r.ingredients.filter ingredient_is_valid).length : ℚ)
    / (r.ingredients.length : ℚ)

/-- Python truthiness of an optional integer time field: None and 0 are
falsy, any other integer is truthy. -/
def timeTruthy : Option ℤ → Bool
  | none => false
  | some t => t ≠ 0

/-- _check_timing_validity (recipe_quality.py lines 222-246). When both time
fields are falsy it returns 0.0 at line 225. Otherwise at least one field is
not None, and the source calls is_valid_time(time, category) with two
arguments against the one-parameter signature in cooking_data.py line 167,
raising TypeError; that exception is modelled as none. The total_time branch
at lines 240-244 is unreachable because reaching it requires a non-None prep
or cook time, which raises first. -/
def check_timing_validity (r : QRecipe) : Option ℚ :=
  if ¬ timeTruthy r.prep_time ∧ ¬ timeTruthy r.cook_time then some 0
  else if r.prep_time.isSome then none
  else if r.cook_time.isSome then none
  else some 0

/-- Word characters of the re \b boundary, ASCII range. -/
def isWordChar (c : Char) : Bool :=
  c.isAlphanum || c = '_'

/-- Head test used for the \b boundary after the f and c alternatives. -/
def headIsWordChar : List Char → Bool
  | [] => false
  | c :: _ => isWordChar c

/-- Unit suffix of the temperature regex in _check_temperature_validity
(line 261): degrees with optional s, a degree sign, or f or c followed by a
word boundary; returns the remaining characters on a match. -/
def matchTempUnit (cs : List Char) : Option (List Char) :=
  if listLeads ("degrees").toList cs then some (cs.drop 7)
  else if listLeads ("degree").toList cs then some (cs.drop 6)
  else
    match cs with
    | [] => none
    | c :: tl =>
        if c = '°' ∨ c = '℉' ∨ c = '℃' then some tl
        else if (c = 'f' ∨ c = 'c') ∧ ¬ headIsWordChar tl then some tl
        else none

/-- Left-to-right non-overlapping scan of re.findall for the temperature
pattern: at each position a maximal digit run, optional whitespace and a
unit suffix; on failure the scan restarts one character later. Fuel bounds
the iteration count by the text length. -/
def scanTemps : ℕ → List Char → List ℤ
  | 0, _ => []
  | _, [] => []
  | fuel + 1, c :: tl =>
      if c.isDigit then
        let ds := c :: tl.takeWhile Char.isDigit
        let rest := (tl.dropWhile Char.isDigit).dropWhile isPyWs
        match matchTempUnit rest with
        | some rest2 => ((digitsToNat ds : ℤ)) :: scanTemps fuel rest2
        | none => scanTemps fuel tl
      else scanTemps fuel tl

/-- All temperature mentions of one lowercased instruction text (the
re.findall at recipe_quality.py line 261). -/
def extractTemps (text : String) : List ℤ :=
  scanTemps (text.toList.length + 1) text.toList

/-- Mention and valid counts one instruction contributes to
_check_temperature_validity (lines 253-264). -/
def instructionTempCounts (i : QInstruction) : ℕ × ℕ :=
  match i.temperature with
  | some t => (1, if is_valid_temperature t then 1 else 0)
  | none =>
      let temps := extractTemps i.text.toLower
      (temps.length, (temps.filter is_valid_temperature).length)

/-- Running mention and valid totals of the loop at lines 253-264. -/
def tempAccum (acc : ℕ × ℕ) (i : QInstruction) : ℕ × ℕ :=
  (acc.1 + (instructionTempCounts i).1, acc.2 + (instructionTempCounts i).2)

/-- _check_temperature_validity (recipe_quality.py lines 248-266): the ratio
of valid mentions, defaulting to 1.0 with no mentions. -/
def check_temperature_validity (r : QRecipe) : ℚ :=
  let counts := r.instructions.foldl tempAccum (0, 0)
  if counts.1 > 0 then (counts.2 : ℚ) / (counts.1 : ℚ) else 1

/-- _check_portion_consistency (recipe_quality.py lines 268-285). -/
def check_portion_consistency (r : QRecipe) : ℚ :=
  match r.yields with
  | none => 0
  | some y =>
      if ¬ is_valid_serving_size y.servings then 0
      else
        let expected_ing_per_serving : ℚ := 2
        let actual_ing_per_serving :=
          (r.ingredients.length : ℚ) / (y.servings : ℚ)
        if actual_ing_per_serving < (1/2) * expected_ing_per_serving then 1/2
        else if actual_ing_per_serving > 3 * expected_ing_per_serving then 1/2
        else 1

/-- analyze_recipe (recipe_quality.py lines 121-150): the six sub-scores and
the fixed-weight overall, threading the TypeError of the timing check (none)
out of the whole analysis. -/
def analyze_recipe (r : QRecipe) : Option RecipeMetrics :=
  match check_timing_validity r with
  | none => none
  | some timing =>
      let completeness := check_completeness r
      let clarity := check_instruction_clarity r
      let ingredients := check_ingredient_validity r
      let temperature := check_temperature_validity r
      let portions := check_portion_consistency r
      some { completeness_score := completeness,
             instruction_clarity := clarity,
             ingredient_validity := ingredients,
             timing_validity := timing,
             temperature_validity := temperature,
             portion_consistency := portions,
             overall_quality :=
               (25/100) * completeness + (25/100) * clarity
                 + (20/100) * ingredients + (10/100) * timing
                 + (10/100) * temperature + (10/100) * portions }

/-- Taste rank enum of the spec data model: 7 ordered levels, index 0..6. -/
inductive TasteRank where
  | Hate | DontLike | Meh | Like | Love | Crave | Legendary
deriving Repr, DecidableEq

/-- Zero-based index of a taste rank. -/
def TasteRank.idx : TasteRank → ℕ
  | .Hate => 0
  | .DontLike => 1
  | .Meh => 2
  | .Like => 3
  | .Love => 4
  | .Crave => 5
  | .Legendary => 6

/-- Dict key naming each taste rank in the source constants. -/
def TasteRank.key : TasteRank → String
  | .Hate => "Hate"
  | .DontLike => "Don\x27t Like"
  | .Meh => "Meh"
  | .Like => "Like"
  | .Love => "Love"
  | .Crave => "Crave"
  | .Legendary => "Legendary"

/-- Cleanup rank enum of the spec data model: 4 ordered levels, index 0..3. -/
inductive CleanupRank where
  | NoMess | Light | Moderate | Heavy
deriving Repr, DecidableEq

/-- Zero-based index of a cleanup rank. -/
def CleanupRank.idx : CleanupRank → ℕ
  | .NoMess => 0
  | .Light => 1
  | .Moderate => 2
  | .Heavy => 3

/-- Dict key naming each cleanup rank in the source constants. -/
def CleanupRank.key : CleanupRank → String
  | .NoMess => "None"
  | .Light => "Light"
  | .Moderate => "Moderate"
  | .Heavy => "Heavy"

/-- Cook ability enum of the spec data model. -/
inductive CookAbility where
  | Beginner | HomeCook | Chef
deriving Repr, DecidableEq

/-- Ability string stored in the source user profile for each enum value. -/
def CookAbility.key : CookAbility → String
  | .Beginner => "Beginner"
  | .HomeCook => "Home Cook"
  | .Chef => "Chef"

/-- FeedbackEvent of the spec data model: one taste/cleanup vote. -/
structure FeedbackEvent where
  tasteRank : TasteRank
  cleanupRank : CleanupRank
deriving Repr, DecidableEq

/-- Spec step 3: skillFactor as a map from the ability enum. -/
def specSkillFactor : CookAbility → ℚ
  | .Beginner => 4
  | .HomeCook => 2
  | .Chef => 1

/-- Spec clamp(lo, hi, x). -/
def specClamp (lo hi x : ℚ) : ℚ :=
  max lo (min hi x)

/-- Spec step 1: tasteAvg = mean of 1-based taste rank indices. -/
def specTasteAvg (events : List FeedbackEvent) : ℚ :=
  (events.map (fun e => (e.tasteRank.idx : ℚ) + 1)).sum / (events.length : ℚ)

/-- Spec step 2: cleanupAvg = mean of 1-based cleanup rank indices. -/
def specCleanupAvg (events : List FeedbackEvent) : ℚ :=
  (events.map (fun e => (e.cleanupRank.idx : ℚ) + 1)).sum
    / (events.length : ℚ)

/-- Spec step 4: familiarity = max(1, 4 - madeCount). -/
def specFamiliarity (madeCount : ℕ) : ℚ :=
  max 1 (4 - (madeCount : ℚ))

/-- Spec step 5: risk clamp. -/
def specRisk (ability : CookAbility) (difficulty : ℚ) (madeCount : ℕ) : ℚ :=
  specClamp 1 4 ((specSkillFactor ability + min 4 (difficulty / 2)
    + specFamiliarity madeCount - 1) / 3)

/-- Spec step 6: per-serving minutes bucketed at 20, 45 and 90 inclusive. -/
def specTimeBucket (prep cook servings : ℕ) : ℚ :=
  let timePerServing := ((prep : ℚ) + (cook : ℚ)) / (servings : ℚ)
  if timePerServing ≤ 20 then 1
  else if timePerServing ≤ 45 then 2
  else if timePerServing ≤ 90 then 3
  else 4

/-- Spec step 7: effort clamp over stepFactor and cleanupAvg. -/
def specEffort (stepCount : ℕ) (events : List FeedbackEvent) : ℚ :=
  specClamp 1 4 ((min 4 ((stepCount : ℚ) / 3) + specCleanupAvg events - 1) / 2)

/-- Spec step 8: sacrifice = max(1, min(4, ingredientCount/servings/2)). -/
def specSacrifice (ingredientCount servings : ℕ) : ℚ :=
  max 1 (min 4 ((ingredientCount : ℚ) / (servings : ℚ) / 2))

/-- computeValue as the spec states it (section 4.3, steps 1-10), over the
spec data model: 0.0 on an empty feedback history, otherwise the weighted
taste mean over the product denominator of steps 9-10. -/
def computeValueSpec (co : Coeffs) (ability : CookAbility)
    (events : List FeedbackEvent)
    (prep cook servings stepCount ingredientCount madeCount : ℕ)
    (difficulty : ℚ) : ℚ :=
  if events.isEmpty then 0
  else
    (co.C_taste * specTasteAvg events) /
      ((co.C_risk * specRisk ability difficulty madeCount)
        * (co.C_time * specTimeBucket prep cook servings)
        * (co.C_effort * specEffort stepCount events)
        * (co.C_sacrifice * specSacrifice ingredientCount servings))

/-- All five coefficients inside the documented [0.1, 1.0] band. -/
def Coeffs.InRange (c : Coeffs) : Prop :=
  (1/10 ≤ c.C_taste ∧ c.C_taste ≤ 1)
    ∧ (1/10 ≤ c.C_risk ∧ c.C_risk ≤ 1)
    ∧ (1/10 ≤ c.C_time ∧ c.C_time ≤ 1)
    ∧ (1/10 ≤ c.C_effort ∧ c.C_effort ≤ 1)
    ∧ (1/10 ≤ c.C_sacrifice ∧ c.C_sacrifice ≤ 1)

/-- All five coefficients strictly positive. -/
def Coeffs.Pos (c : Coeffs) : Prop :=
  0 < c.C_taste ∧ 0 < c.C_risk ∧ 0 < c.C_time ∧ 0 < c.C_effort
    ∧ 0 < c.C_sacrifice

/-- One applyFeedback call: the recipe voted on and the two rank strings. -/
def applyFeedbackSeq (u : User) (calls : List (Recipe × String × String)) :
    User :=
  calls.foldl (fun acc c => acc.adjust_coefficients c.1 c.2.1 c.2.2) u

/-- A call with a well-formed recipe and recognized rank strings. -/
def ValidCall (c : Recipe × String × String) : Prop :=
  1 ≤ c.1.servings ∧ c.2.1 ∈ scoreKeys ∧ c.2.2 ∈ cleanupKeys

/-- The golden-scenario recipe of spec section 8: prep 10, cook 10, servings
4, three steps, one Love/Light feedback; the scenario leaves the ingredient
count free, fixed here at four lines. -/
def goldenRecipe : Recipe :=
  { Recipe.make ("Golden") ["flour", "milk", "eggs", "salt"] ["a", "b", "c"]
      10 10 4 with
    votes := ["Love"], cleanups := ["Light"] }

/-- The default user profile of the golden scenario: Home Cook, all
coefficients 1.0. -/
def goldenUser : User := {}

/-- The section 8 applyFeedback scenario: timePerServing 50, 12 steps, 6
ingredients per serving, voted Hate with Heavy cleanup. -/
def c7Recipe : Recipe :=
  Recipe.make ("Messy Feast")
    ["i1", "i2", "i3", "i4", "i5", "i6"]
    ["s1", "s2", "s3", "s4", "s5", "s6", "s7", "s8", "s9", "s10", "s11", "s12"]
    25 25 1

/-- A quality-analyzer input whose timing fields are present: the analysis
reaches the two-argument is_valid_time call on it. -/
def timedQRecipe : QRecipe :=
  { title := "Soup", prep_time := some 30, cook_time := some 45 }

/-- A quality-analyzer input with no timing fields, on which the analysis
completes; it exercises every sub-score including a temperature mention. -/
def qWitnessRecipe : QRecipe :=
  { title := "Toast",
    ingredients := [{ name := "salted butter", amount := some 1,
                      unit := some "tbsp" }],
    instructions := [{ text := "Bake at 350 F until golden in the oven" }],
    yields := some { servings := 2 } }

/-- The floor-at-1 reading of a scraped servings value that the claim
asserts: numeric servings at least one. -/
def YieldValue.atLeastOne : YieldValue → Prop
  | .num n => 1 ≤ n
  | .txt _ => True

/-- A JSON-LD recipe object declaring zero servings. -/
def c9Json : JsonLDRecipe :=
  { atType := some ("Recipe"), name := some ("Zero Serve"),
    recipeIngredient := ["x"], recipeInstructions := ["y"],
    recipeYield := some (YieldValue.num 0) }

/-- A single-candidate list whose ingredient text matches a user allergy. -/
def allergyRecipe : Recipe :=
  Recipe.make ("PB Toast") ["peanut butter", "bread"] ["spread"] 1 0 1

/-- A user allergic to peanut, in mixed case to exercise the
case-insensitive match. -/
def allergyUser : User :=
  { allergies := ["Peanut"] }

/-- Lower clamp bound of a downward coefficient update. -/
theorem clampDown_lb (x d : ℚ) : 1/10 ≤ max (1/10) (x - d) :=
  le_max_left _ _

/-- Upper clamp bound of a downward coefficient update. -/
theorem clampDown_ub (x d : ℚ) (hd : 0 ≤ d) (hx : x ≤ 1) :
    max (1/10) (x - d) ≤ 1 :=
  max_le (by norm_num) (by linarith)

/-- Lower clamp bound of an upward coefficient update. -/
theorem clampUp_lb (x d : ℚ) (hd : 0 ≤ d) (hx : 1/10 ≤ x) :
    1/10 ≤ min 1 (x + d) :=
  le_min (by norm_num) (by linarith)

/-- Upper clamp bound of an upward coefficient update. -/
theorem clampUp_ub (x d : ℚ) : min 1 (x + d) ≤ 1 :=
  min_le_left _ _

/-- Embedded key index agrees with the spec taste index. -/
theorem indexOf_tasteKey (t : TasteRank) :
    scoreKeys.indexOf t.key = t.idx := by
  cases t <;> decide

/-- Embedded key index agrees with the spec cleanup index. -/
theorem indexOf_cleanupKey (c : CleanupRank) :
    cleanupKeys.indexOf c.key = c.idx := by
  cases c <;> decide

/-- The source skill lookup agrees with the spec skillFactor map on the
three named abilities. -/
theorem skill_map_key (a : CookAbility) :
    skill_map a.key = specSkillFactor a := by
  cases a <;> rfl

/-- taste_avg of a recipe whose votes name the events of a feedback history
equals the spec tasteAvg of that history. -/
theorem taste_avg_spec (r : Recipe) (events : List FeedbackEvent)
    (hv : r.votes = events.map (fun e => e.tasteRank.key)) :
    r.taste_avg = specTasteAvg events := by
  unfold Recipe.taste_avg specTasteAvg
  rw [hv, List.map_map, List.length_map]
  congr 1
  refine congrArg List.sum (List.map_congr_left ?_)
  intro e _
  simp [Function.comp, indexOf_tasteKey]

/-- cleanup_avg of a recipe whose cleanups name the events of a feedback
history equals the spec cleanupAvg of that history. -/
theorem cleanup_avg_spec (r : Recipe) (events : List FeedbackEvent)
    (hc : r.cleanups = events.map (fun e => e.cleanupRank.key)) :
    r.cleanup_avg = specCleanupAvg events := by
  unfold Recipe.cleanup_avg specCleanupAvg
  rw [hc, List.map_map, List.length_map]
  congr 1
  refine congrArg List.sum (List.map_congr_left ?_)
  intro e _
  simp [Function.comp, indexOf_cleanupKey]

/-- The time threshold statement keeps every coefficient in band. -/
theorem InRange_adjustTimeStep (r : Recipe) (c : Coeffs)
    (h : c.InRange) : (adjustTimeStep r c).InRange := by
  obtain ⟨h1, h2, ⟨h3a, h3b⟩, h4, h5⟩ := h
  unfold adjustTimeStep
  split
  · exact ⟨h1, h2, ⟨clampDown_lb _ _, clampDown_ub _ _ (by norm_num) h3b⟩,
      h4, h5⟩
  · exact ⟨h1, h2, ⟨h3a, h3b⟩, h4, h5⟩

/-- The step-count threshold statement keeps every coefficient in band. -/
theorem InRange_adjustEffortStep (r : Recipe) (c : Coeffs)
    (h : c.InRange) : (adjustEffortStep r c).InRange := by
  obtain ⟨h1, h2, h3, ⟨h4a, h4b⟩, h5⟩ := h
  unfold adjustEffortStep
  split
  · exact ⟨h1, h2, h3, ⟨clampDown_lb _ _, clampDown_ub _ _ (by norm_num) h4b⟩,
      h5⟩
  · exact ⟨h1, h2, h3, ⟨h4a, h4b⟩, h5⟩

/-- The ingredient threshold statement keeps every coefficient in band. -/
theorem InRange_adjustSacrificeStep (r : Recipe) (c : Coeffs)
    (h : c.InRange) : (adjustSacrificeStep r c).InRange := by
  obtain ⟨h1, h2, h3, h4, ⟨h5a, h5b⟩⟩ := h
  unfold adjustSacrificeStep
  split
  · exact ⟨h1, h2, h3, h4,
      ⟨clampDown_lb _ _, clampDown_ub _ _ (by norm_num) h5b⟩⟩
  · exact ⟨h1, h2, h3, h4, ⟨h5a, h5b⟩⟩

/-- The unconditional taste cut keeps every coefficient in band. -/
theorem InRange_adjustTasteDownStep (c : Coeffs)
    (h : c.InRange) : (adjustTasteDownStep c).InRange := by
  obtain ⟨⟨h1a, h1b⟩, h2, h3, h4, h5⟩ := h
  exact ⟨⟨clampDown_lb _ _, clampDown_ub _ _ (by norm_num) h1b⟩,
    h2, h3, h4, h5⟩

/-- The whole taste conditional keeps every coefficient in band. -/
theorem InRange_adjustTasteBranch (r : Recipe) (i : ℕ) (c : Coeffs)
    (h : c.InRange) : (adjustTasteBranch r i c).InRange := by
  unfold adjustTasteBranch
  split
  · exact InRange_adjustTasteDownStep _
      (InRange_adjustSacrificeStep _ _ (InRange_adjustEffortStep _ _
        (InRange_adjustTimeStep _ _ h)))
  · split
    · obtain ⟨⟨h1a, h1b⟩, h2, h3, h4, h5⟩ := h
      exact ⟨⟨clampUp_lb _ _ (by norm_num) h1a, clampUp_ub _ _⟩,
        h2, h3, h4, h5⟩
    · exact h

/-- The cleanup conditional keeps every coefficient in band. -/
theorem InRange_adjustCleanupStep (i : ℕ) (c : Coeffs)
    (h : c.InRange) : (adjustCleanupStep i c).InRange := by
  obtain ⟨h1, h2, h3, ⟨h4a, h4b⟩, h5⟩ := h
  unfold adjustCleanupStep
  split
  · exact ⟨h1, h2, h3, ⟨clampDown_lb _ _, clampDown_ub _ _ (by norm_num) h4b⟩,
      h5⟩
  · exact ⟨h1, h2, h3, ⟨h4a, h4b⟩, h5⟩

/-- One adjust_coefficients call keeps every coefficient in band. -/
theorem adjust_preserves_InRange (u : User) (r : Recipe) (t c : String)
    (h : u.coefficients.InRange) :
    (u.adjust_coefficients r t c).coefficients.InRange :=
  InRange_adjustCleanupStep _ _ (InRange_adjustTasteBranch _ _ _ h)

/-- The risk factor is clamped at or above one. -/
theorem one_le_risk (r : Recipe) (u : User) : 1 ≤ r.risk u :=
  le_max_left _ _

/-- The time bucket is between one and four. -/
theorem one_le_time (r : Recipe) : 1 ≤ r.time := by
  unfold Recipe.time
  split_ifs <;> norm_num

/-- The effort factor is clamped at or above one. -/
theorem one_le_effort (r : Recipe) : 1 ≤ r.effort :=
  le_max_left _ _

/-- The sacrifice factor is clamped at or above one. -/
theorem one_le_sacrifice (r : Recipe) : 1 ≤ r.sacrifice :=
  le_max_left _ _

/-- A recipe with at least one vote has a strictly positive taste mean. -/
theorem taste_avg_pos (r : Recipe) (h : r.votes ≠ []) : 0 < r.taste_avg := by
  obtain ⟨v, vs, hv⟩ := List.exists_cons_of_ne_nil h
  unfold Recipe.taste_avg
  rw [hv]
  apply div_pos
  · simp only [List.map_cons, List.sum_cons]
    have hrest : (0:ℚ) ≤ (vs.map (fun v => (scoreKeys.indexOf v : ℚ) + 1)).sum := by
      apply List.sum_nonneg
      intro x hx
      obtain ⟨w, _, hw⟩ := List.mem_map.mp hx
      rw [← hw]
      positivity
    have hhead : (0:ℚ) < (scoreKeys.indexOf v : ℚ) + 1 := by positivity
    linarith
  · simp only [List.length_cons]
    positivity

/-- With positive risk, time, effort and sacrifice coefficients the
calculate_value denominator is strictly positive. -/
theorem denominator_pos (r : Recipe) (u : User)
    (h2 : 0 < u.coefficients.C_risk) (h3 : 0 < u.coefficients.C_time)
    (h4 : 0 < u.coefficients.C_effort)
    (h5 : 0 < u.coefficients.C_sacrifice) : 0 < r.denominator u := by
  unfold Recipe.denominator
  have f1 : (0:ℚ) < r.risk u := lt_of_lt_of_le one_pos (one_le_risk r u)
  have f2 : (0:ℚ) < r.time := lt_of_lt_of_le one_pos (one_le_time r)
  have f3 : (0:ℚ) < r.effort := lt_of_lt_of_le one_pos (one_le_effort r)
  have f4 : (0:ℚ) < r.sacrifice := lt_of_lt_of_le one_pos (one_le_sacrifice r)
  exact mul_pos (mul_pos (mul_pos (mul_pos h2 f1) (mul_pos h3 f2))
    (mul_pos h4 f3)) (mul_pos h5 f4)

/-- Division with a fixed nonnegative numerator is antitone in a positive
denominator. -/
theorem div_antitone_denom (n da db : ℚ) (hn : 0 ≤ n) (ha : 0 < da)
    (hab : da ≤ db) : n / db ≤ n / da := by
  have hb : 0 < db := lt_of_lt_of_le ha hab
  rw [div_le_div_iff hb ha]
  exact mul_le_mul_of_nonneg_left hab hn

/-- Lowering the denominator coefficient of one factor while keeping the
taste coefficient fixed can only raise the value. -/
theorem calc_value_denom_anti (r : Recipe) (u1 u2 : User)
    (hv : r.votes ≠ [])
    (hct : u1.coefficients.C_taste = u2.coefficients.C_taste)
    (hn : 0 ≤ u1.coefficients.C_taste)
    (hd1 : 0 < r.denominator u1)
    (hdd : r.denominator u1 ≤ r.denominator u2) :
    r.calculate_value u2 ≤ r.calculate_value u1 := by
  unfold Recipe.calculate_value
  rw [if_neg hv, if_neg hv, ← hct]
  exact div_antitone_denom _ _ _
    (mul_nonneg hn (le_of_lt (taste_avg_pos r hv))) hd1 hdd

/-- The completeness sub-score lies in the unit interval. -/
theorem completeness_mem (r : QRecipe) :
    0 ≤ check_completeness r ∧ check_completeness r ≤ 1 := by
  have hi1 : (0:ℚ) ≤ min 1 ((r.ingredients.length : ℚ) / 3) :=
    le_min (by norm_num) (by positivity)
  have hi2 : min 1 ((r.ingredients.length : ℚ) / 3) ≤ 1 := min_le_left _ _
  have hs1 : (0:ℚ) ≤ min 1 ((r.instructions.length : ℚ) / 3) :=
    le_min (by norm_num) (by positivity)
  have hs2 : min 1 ((r.instructions.length : ℚ) / 3) ≤ 1 := min_le_left _ _
  unfold check_completeness
  split_ifs <;> constructor <;> linarith

/-- Each per-step clarity score lies in the unit interval. -/
theorem step_score_mem (i : QInstruction) :
    0 ≤ instruction_step_score i ∧ instruction_step_score i ≤ 1 := by
  unfold instruction_step_score
  dsimp only
  split_ifs <;> constructor <;> norm_num

/-- The instruction clarity sub-score lies in the unit interval. -/
theorem clarity_mem (r : QRecipe) :
    0 ≤ check_instruction_clarity r ∧ check_instruction_clarity r ≤ 1 := by
  unfold check_instruction_clarity
  split_ifs with h
  · norm_num
  · constructor
    · refine le_min (by norm_num) (div_nonneg ?_ (by positivity))
      apply List.sum_nonneg
      intro x hx
      obtain ⟨i, _, rfl⟩ := List.mem_map.mp hx
      exact (step_score_mem i).1
    · exact min_le_left _ _

/-- The ingredient validity sub-score lies in the unit interval. -/
theorem ingredient_mem (r : QRecipe) :
    0 ≤ check_ingredient_validity r ∧ check_ingredient_validity r ≤ 1 := by
  unfold check_ingredient_validity
  split_ifs with h
  · norm_num
  · have hlen : 0 < r.ingredients.length := by
      cases hl : r.ingredients with
      | nil => rw [hl] at h; simp at h
      | cons a l => simp [hl]
    constructor
    · positivity
    · rw [div_le_one (by exact_mod_cast hlen)]
      exact_mod_cast List.length_filter_le _ _

/-- When the timing check returns at all, it returns zero. -/
theorem timing_some_eq_zero (r : QRecipe) (q : ℚ)
    (h : check_timing_validity r = some q) : q = 0 := by
  unfold check_timing_validity at h
  split_ifs at h <;> simp_all

/-- One instruction never contributes more valid mentions than mentions. -/
theorem tempCounts_le (i : QInstruction) :
    (instructionTempCounts i).2 ≤ (instructionTempCounts i).1 := by
  unfold instructionTempCounts
  cases ht : i.temperature with
  | some t =>
      dsimp only
      split_ifs <;> norm_num
  | none =>
      dsimp only
      exact List.length_filter_le _ _

/-- The running valid total never exceeds the running mention total. -/
theorem tempAccum_fold_le (l : List QInstruction) :
    ∀ a b : ℕ, b ≤ a →
      (l.foldl tempAccum (a, b)).2 ≤ (l.foldl tempAccum (a, b)).1 := by
  induction l with
  | nil => intro a b h; exact h
  | cons hd tl ih =>
      intro a b h
      exact ih _ _ (Nat.add_le_add h (tempCounts_le hd))

/-- The temperature validity sub-score lies in the unit interval. -/
theorem temperature_mem (r : QRecipe) :
    0 ≤ check_temperature_validity r ∧ check_temperature_validity r ≤ 1 := by
  unfold check_temperature_validity
  dsimp only
  split_ifs with h
  · have hle := tempAccum_fold_le r.instructions 0 0 le_rfl
    constructor
    · positivity
    · rw [div_le_one (by exact_mod_cast h)]
      exact_mod_cast hle
  · norm_num

/-- The portion consistency sub-score lies in the unit interval. -/
theorem portion_mem (r : QRecipe) :
    0 ≤ check_portion_consistency r ∧ check_portion_consistency r ≤ 1 := by
  unfold check_portion_consistency
  split
  · norm_num
  · dsimp only
    split_ifs <;> norm_num

/-- The running best of the Python max scan stays inside the scanned list. -/
theorem foldl_best_mem (u : User) :
    ∀ (tl : List Recipe) (b : Recipe),
      tl.foldl
        (fun best x => if suggestion_key u x > suggestion_key u best then x
          else best) b ∈ b :: tl := by
  intro tl
  induction tl with
  | nil => intro b; simp
  | cons hd tl2 ih =>
      intro b
      have h := ih (if suggestion_key u hd > suggestion_key u b then hd else b)
      rcases List.mem_cons.mp h with h1 | h2
      · show _ ∈ b :: hd :: tl2
        rw [List.foldl_cons, h1]
        split_ifs
        · exact List.mem_cons_of_mem _ (List.mem_cons_self _ _)
        · exact List.mem_cons_self _ _
      · show _ ∈ b :: hd :: tl2
        rw [List.foldl_cons]
        exact List.mem_cons_of_mem _ (List.mem_cons_of_mem _ h2)

/-- A pick of the Python max scan is a member of its input list. -/
theorem maxByKey_mem (u : User) (l : List Recipe) (r : Recipe)
    (h : maxByKey u l = some r) : r ∈ l := by
  cases l with
  | nil => simp [maxByKey] at h
  | cons hd tl =>
      unfold maxByKey at h
      injection h with h
      rw [← h]
      exact foldl_best_mem u tl hd

/-- C1: calculate_value returns exactly 0 on an empty feedback history; on a
non-empty history it returns the spec formula (C_taste times tasteAvg over
the product of the coefficient-weighted risk, time, effort and sacrifice
factors, each factor defined as in spec section 4.3 steps 1-10); and the
section 8 golden scenario reproduces tasteAvg 5, cleanupAvg 2, skillFactor
2, familiarity 4, risk 23/12, time bucket 1, stepFactor 1 and effort 1. -/
theorem C1_calculate_value_contract :
    (∀ (r : Recipe) (u : User), r.votes = [] → r.calculate_value u = 0) ∧
    (∀ (r : Recipe) (u : User) (ability : CookAbility)
        (events : List FeedbackEvent),
      u.cook_ability = ability.key →
      r.votes = events.map (fun e => e.tasteRank.key) →
      r.cleanups = events.map (fun e => e.cleanupRank.key) →
      r.calculate_value u =
        computeValueSpec u.coefficients ability events r.prep_time r.cook_time
          r.servings r.steps.length r.ingredients.length r.made_count
          r.difficulty) ∧
    (goldenRecipe.taste_avg = 5 ∧ goldenRecipe.cleanup_avg = 2 ∧
      skill_map goldenUser.cook_ability = 2 ∧ goldenRecipe.familiarity = 4 ∧
      goldenRecipe.risk goldenUser = 23/12 ∧ goldenRecipe.time = 1 ∧
      goldenRecipe.step_factor = 1 ∧ goldenRecipe.effort = 1) := by
  refine ⟨?_, ?_, ?_⟩
  · intro r u h
    unfold Recipe.calculate_value
    rw [if_pos h]
  · intro r u ability events hab hv hc
    unfold Recipe.calculate_value computeValueSpec
    by_cases he : events = []
    · subst he
      simp only [List.map_nil] at hv
      simp [hv]
    · have hvne : r.votes ≠ [] := by
        rw [hv]
        simp [he]
      rw [if_neg hvne, if_neg (by simp [he])]
      have hrisk : r.risk u = specRisk ability r.difficulty r.made_count := by
        unfold Recipe.risk specRisk specClamp specFamiliarity Recipe.familiarity
        rw [hab, skill_map_key]
      have htime : r.time
          = specTimeBucket r.prep_time r.cook_time r.servings := rfl
      have heffort : r.effort = specEffort r.steps.length events := by
        unfold Recipe.effort specEffort specClamp Recipe.step_factor
        rw [cleanup_avg_spec r events hc]
      have hsac : r.sacrifice
          = specSacrifice r.ingredients.length r.servings := rfl
      rw [taste_avg_spec r events hv]
      unfold Recipe.denominator
      rw [hrisk, htime, heffort, hsac]
  · exact ⟨by with_unfolding_all decide, by with_unfolding_all decide,
      by with_unfolding_all decide, by with_unfolding_all decide,
      by with_unfolding_all decide, by with_unfolding_all decide,
      by with_unfolding_all decide, by with_unfolding_all decide⟩

/-- Witness for C1: a freshly made recipe with no votes values to 0, and the
golden recipe agrees with the spec formula at its own feedback history. -/
theorem C1_calculate_value_contract_witness :
    (Recipe.make ("Plain") ["x"] ["y"] 1 1 1).calculate_value goldenUser = 0
      ∧ goldenRecipe.calculate_value goldenUser =
        computeValueSpec goldenUser.coefficients CookAbility.HomeCook
          [{ tasteRank := TasteRank.Love, cleanupRank := CleanupRank.Light }]
          goldenRecipe.prep_time goldenRecipe.cook_time goldenRecipe.servings
          goldenRecipe.steps.length goldenRecipe.ingredients.length
          goldenRecipe.made_count goldenRecipe.difficulty :=
  ⟨C1_calculate_value_contract.1 _ goldenUser rfl,
    C1_calculate_value_contract.2.1 goldenRecipe goldenUser
      CookAbility.HomeCook
      [{ tasteRank := TasteRank.Love, cleanupRank := CleanupRank.Light }]
      rfl rfl rfl⟩

/-- C2: starting from any profile whose five coefficients lie in [0.1, 1.0],
any finite sequence of adjust_coefficients calls with valid recipes and
recognized rank strings leaves every coefficient in [0.1, 1.0]. -/
theorem C2_coefficients_clamp_invariant :
    ∀ (calls : List (Recipe × String × String)) (u : User),
      (∀ c ∈ calls, ValidCall c) → u.coefficients.InRange →
      (applyFeedbackSeq u calls).coefficients.InRange := by
  intro calls
  induction calls with
  | nil => intro u _ h; exact h
  | cons hd tl ih =>
      intro u hvalid h
      exact ih _ (fun c hc => hvalid c (List.mem_cons_of_mem _ hc))
        (adjust_preserves_InRange _ _ _ _ h)

/-- Witness for C2: the default profile put through the section 8 scenario
call stays in band. -/
theorem C2_coefficients_clamp_invariant_witness :
    (applyFeedbackSeq {} [(c7Recipe, "Hate", "Heavy")]).coefficients.InRange :=
  C2_coefficients_clamp_invariant [(c7Recipe, "Hate", "Heavy")] {}
    (by
      intro c hc
      rw [List.mem_singleton] at hc
      subst hc
      exact ⟨by norm_num [c7Recipe, Recipe.make], by decide, by decide⟩)
    (by
      refine ⟨⟨?_, ?_⟩, ⟨?_, ?_⟩, ⟨?_, ?_⟩, ⟨?_, ?_⟩, ⟨?_, ?_⟩⟩ <;>
        norm_num [Coeffs.default])

/-- C3: contrary to the claim that the analyzer raises no exception for any
recipe, a recipe with both timing fields present makes
_check_timing_validity call the one-parameter is_valid_time with two
arguments, raising TypeError; the analysis aborts (modelled as none)
instead of returning a metrics value. -/
theorem C3_timing_typeerror :
    check_timing_validity timedQRecipe = none
      ∧ analyze_recipe timedQRecipe = none :=
  ⟨rfl, rfl⟩

/-- C4: on a recipe with at least one vote and profiles with positive
coefficients, calculate_value is non-decreasing in C_taste and
non-increasing in each of C_risk, C_time, C_effort and C_sacrifice, the
four other coefficients and the cook ability held fixed. -/
theorem C4_value_monotonicity :
    ∀ (r : Recipe) (u1 u2 : User),
      r.votes ≠ [] → u1.coefficients.Pos → u2.coefficients.Pos →
      u1.cook_ability = u2.cook_ability →
      ((u1.coefficients.C_risk = u2.coefficients.C_risk ∧
        u1.coefficients.C_time = u2.coefficients.C_time ∧
        u1.coefficients.C_effort = u2.coefficients.C_effort ∧
        u1.coefficients.C_sacrifice = u2.coefficients.C_sacrifice) →
        u1.coefficients.C_taste ≤ u2.coefficients.C_taste →
        r.calculate_value u1 ≤ r.calculate_value u2) ∧
      ((u1.coefficients.C_taste = u2.coefficients.C_taste ∧
        u1.coefficients.C_time = u2.coefficients.C_time ∧
        u1.coefficients.C_effort = u2.coefficients.C_effort ∧
        u1.coefficients.C_sacrifice = u2.coefficients.C_sacrifice) →
        u1.coefficients.C_risk ≤ u2.coefficients.C_risk →
        r.calculate_value u2 ≤ r.calculate_value u1) ∧
      ((u1.coefficients.C_taste = u2.coefficients.C_taste ∧
        u1.coefficients.C_risk = u2.coefficients.C_risk ∧
        u1.coefficients.C_effort = u2.coefficients.C_effort ∧
        u1.coefficients.C_sacrifice = u2.coefficients.C_sacrifice) →
        u1.coefficients.C_time ≤ u2.coefficients.C_time →
        r.calculate_value u2 ≤ r.calculate_value u1) ∧
      ((u1.coefficients.C_taste = u2.coefficients.C_taste ∧
        u1.coefficients.C_risk = u2.coefficients.C_risk ∧
        u1.coefficients.C_time = u2.coefficients.C_time ∧
        u1.coefficients.C_sacrifice = u2.coefficients.C_sacrifice) →
        u1.coefficients.C_effort ≤ u2.coefficients.C_effort →
        r.calculate_value u2 ≤ r.calculate_value u1) ∧
      ((u1.coefficients.C_taste = u2.coefficients.C_taste ∧
        u1.coefficients.C_risk = u2.coefficients.C_risk ∧
        u1.coefficients.C_time = u2.coefficients.C_time ∧
        u1.coefficients.C_effort = u2.coefficients.C_effort) →
        u1.coefficients.C_sacrifice ≤ u2.coefficients.C_sacrifice →
        r.calculate_value u2 ≤ r.calculate_value u1) := by
  intro r u1 u2 hv hp1 hp2 hab
  obtain ⟨p11, p12, p13, p14, p15⟩ := hp1
  obtain ⟨p21, p22, p23, p24, p25⟩ := hp2
  have hT : 0 < r.taste_avg := taste_avg_pos r hv
  have hrisk : r.risk u1 = r.risk u2 := by
    unfold Recipe.risk
    rw [hab]
  have hRnn : (0:ℚ) ≤ r.risk u2 := le_trans zero_le_one (one_le_risk r u2)
  have hTinn : (0:ℚ) ≤ r.time := le_trans zero_le_one (one_le_time r)
  have hEnn : (0:ℚ) ≤ r.effort := le_trans zero_le_one (one_le_effort r)
  have hSnn : (0:ℚ) ≤ r.sacrifice := le_trans zero_le_one (one_le_sacrifice r)
  have hd1 : 0 < r.denominator u1 := denominator_pos r u1 p12 p13 p14 p15
  have hd2 : 0 < r.denominator u2 := denominator_pos r u2 p22 p23 p24 p25
  refine ⟨?_, ?_, ?_, ?_, ?_⟩
  · rintro ⟨e2, e3, e4, e5⟩ hle
    have hD : r.denominator u1 = r.denominator u2 := by
      unfold Recipe.denominator
      rw [hrisk, e2, e3, e4, e5]
    unfold Recipe.calculate_value
    rw [if_neg hv, if_neg hv, hD]
    exact (div_le_div_right hd2).mpr
      (mul_le_mul_of_nonneg_right hle (le_of_lt hT))
  · rintro ⟨e1, e3, e4, e5⟩ hle
    apply calc_value_denom_anti r u1 u2 hv e1 (le_of_lt p11) hd1
    unfold Recipe.denominator
    rw [hrisk, e3, e4, e5]
    refine mul_le_mul_of_nonneg_right
      (mul_le_mul_of_nonneg_right (mul_le_mul_of_nonneg_right ?_ ?_) ?_) ?_
    · exact mul_le_mul_of_nonneg_right hle hRnn
    · exact mul_nonneg (le_of_lt p23) hTinn
    · exact mul_nonneg (le_of_lt p24) hEnn
    · exact mul_nonneg (le_of_lt p25) hSnn
  · rintro ⟨e1, e2, e4, e5⟩ hle
    apply calc_value_denom_anti r u1 u2 hv e1 (le_of_lt p11) hd1
    unfold Recipe.denominator
    rw [hrisk, e2, e4, e5]
    refine mul_le_mul_of_nonneg_right (mul_le_mul_of_nonneg_right ?_ ?_) ?_
    · exact mul_le_mul_of_nonneg_left
        (mul_le_mul_of_nonneg_right hle hTinn)
        (mul_nonneg (le_of_lt p22) hRnn)
    · exact mul_nonneg (le_of_lt p24) hEnn
    · exact mul_nonneg (le_of_lt p25) hSnn
  · rintro ⟨e1, e2, e3, e5⟩ hle
    apply calc_value_denom_anti r u1 u2 hv e1 (le_of_lt p11) hd1
    unfold Recipe.denominator
    rw [hrisk, e2, e3, e5]
    refine mul_le_mul_of_nonneg_right ?_ (mul_nonneg (le_of_lt p25) hSnn)
    exact mul_le_mul_of_nonneg_left
      (mul_le_mul_of_nonneg_right hle hEnn)
      (mul_nonneg (mul_nonneg (le_of_lt p22) hRnn)
        (mul_nonneg (le_of_lt p23) hTinn))
  · rintro ⟨e1, e2, e3, e4⟩ hle
    apply calc_value_denom_anti r u1 u2 hv e1 (le_of_lt p11) hd1
    unfold Recipe.denominator
    rw [hrisk, e2, e3, e4]
    exact mul_le_mul_of_nonneg_left
      (mul_le_mul_of_nonneg_right hle hSnn)
      (mul_nonneg (mul_nonneg (mul_nonneg (le_of_lt p22) hRnn)
        (mul_nonneg (le_of_lt p23) hTinn))
        (mul_nonneg (le_of_lt p24) hEnn))

/-- Witness for C4: halving the taste coefficient of the default profile
can only lower the golden recipe value. -/
theorem C4_value_monotonicity_witness :
    goldenRecipe.calculate_value
        { goldenUser with coefficients :=
            { goldenUser.coefficients with C_taste := 1/2 } } ≤
      goldenRecipe.calculate_value goldenUser :=
  (C4_value_monotonicity goldenRecipe
      { goldenUser with coefficients :=
          { goldenUser.coefficients with C_taste := 1/2 } }
      goldenUser
      (by with_unfolding_all decide)
      (by refine ⟨?_, ?_, ?_, ?_, ?_⟩ <;>
        norm_num [goldenUser, Coeffs.default])
      (by refine ⟨?_, ?_, ?_, ?_, ?_⟩ <;>
        norm_num [goldenUser, Coeffs.default])
      rfl).1
    ⟨rfl, rfl, rfl, rfl⟩
    (by norm_num [goldenUser, Coeffs.default])

/-- C5: with all coefficients in [0.1, 1.0], at least one serving, and at
least one vote and cleanup entry, every factor of the calculate_value
denominator is at least 1, every coefficient at least 0.1, and the
denominator is strictly positive, so the final division is by a nonzero
number. -/
theorem C5_denominator_positive :
    ∀ (r : Recipe) (u : User),
      u.coefficients.InRange → 1 ≤ r.servings → r.votes ≠ [] →
      r.cleanups ≠ [] →
      (1 ≤ r.risk u ∧ 1 ≤ r.time ∧ 1 ≤ r.effort ∧ 1 ≤ r.sacrifice) ∧
      (1/10 ≤ u.coefficients.C_risk ∧ 1/10 ≤ u.coefficients.C_time ∧
        1/10 ≤ u.coefficients.C_effort ∧
        1/10 ≤ u.coefficients.C_sacrifice) ∧
      0 < r.denominator u ∧ r.denominator u ≠ 0 := by
  intro r u h _ _ _
  obtain ⟨_, ⟨h2a, _⟩, ⟨h3a, _⟩, ⟨h4a, _⟩, ⟨h5a, _⟩⟩ := h
  have hten : (0:ℚ) < 1/10 := by norm_num
  have hpos : 0 < r.denominator u :=
    denominator_pos r u (lt_of_lt_of_le hten h2a) (lt_of_lt_of_le hten h3a)
      (lt_of_lt_of_le hten h4a) (lt_of_lt_of_le hten h5a)
  exact ⟨⟨one_le_risk r u, one_le_time r, one_le_effort r,
    one_le_sacrifice r⟩, ⟨h2a, h3a, h4a, h5a⟩, hpos, ne_of_gt hpos⟩

/-- Witness for C5: the golden scenario denominator is strictly positive. -/
theorem C5_denominator_positive_witness :
    0 < goldenRecipe.denominator goldenUser :=
  (C5_denominator_positive goldenRecipe goldenUser
    (by refine ⟨⟨?_, ?_⟩, ⟨?_, ?_⟩, ⟨?_, ?_⟩, ⟨?_, ?_⟩, ⟨?_, ?_⟩⟩ <;>
      norm_num [goldenUser, Coeffs.default])
    (by with_unfolding_all decide)
    (by with_unfolding_all decide)
    (by with_unfolding_all decide)).2.2.1

/-- C6: whenever analyze_recipe returns a metrics value, all six sub-scores
lie in [0, 1], the overall score is the fixed-weight sum with weights 0.25,
0.25, 0.20, 0.10, 0.10, 0.10, and the overall score lies in [0, 1]. -/
theorem C6_quality_scores_bounded :
    ∀ (r : QRecipe) (m : RecipeMetrics), analyze_recipe r = some m →
      (0 ≤ m.completeness_score ∧ m.completeness_score ≤ 1) ∧
      (0 ≤ m.instruction_clarity ∧ m.instruction_clarity ≤ 1) ∧
      (0 ≤ m.ingredient_validity ∧ m.ingredient_validity ≤ 1) ∧
      (0 ≤ m.timing_validity ∧ m.timing_validity ≤ 1) ∧
      (0 ≤ m.temperature_validity ∧ m.temperature_validity ≤ 1) ∧
      (0 ≤ m.portion_consistency ∧ m.portion_consistency ≤ 1) ∧
      m.overall_quality =
        (25/100) * m.completeness_score + (25/100) * m.instruction_clarity
          + (20/100) * m.ingredient_validity + (10/100) * m.timing_validity
          + (10/100) * m.temperature_validity
          + (10/100) * m.portion_consistency ∧
      (0 ≤ m.overall_quality ∧ m.overall_quality ≤ 1) := by
  intro r m h
  unfold analyze_recipe at h
  cases hct : check_timing_validity r with
  | none => rw [hct] at h; exact absurd h (by simp)
  | some q =>
      rw [hct] at h
      dsimp only at h
      injection h with h
      subst h
      have hq : q = 0 := timing_some_eq_zero r q hct
      subst hq
      have h1 := completeness_mem r
      have h2 := clarity_mem r
      have h3 := ingredient_mem r
      have h4 := temperature_mem r
      have h5 := portion_mem r
      refine ⟨h1, h2, h3, by norm_num, h4, h5, rfl, ?_, ?_⟩
      · dsimp only
        obtain ⟨h1a, _⟩ := h1
        obtain ⟨h2a, _⟩ := h2
        obtain ⟨h3a, _⟩ := h3
        obtain ⟨h4a, _⟩ := h4
        obtain ⟨h5a, _⟩ := h5
        linarith
      · dsimp only
        obtain ⟨_, h1b⟩ := h1
        obtain ⟨_, h2b⟩ := h2
        obtain ⟨_, h3b⟩ := h3
        obtain ⟨_, h4b⟩ := h4
        obtain ⟨_, h5b⟩ := h5
        linarith

/-- Witness for C6: the toast recipe analyzes to overall 43/60, inside the
unit interval. -/
theorem C6_quality_scores_bounded_witness :
    0 ≤ (RecipeMetrics.mk (7/15) 1 1 0 1 (1/2) (43/60)).overall_quality ∧
      (RecipeMetrics.mk (7/15) 1 1 0 1 (1/2) (43/60)).overall_quality ≤ 1 :=
  (C6_quality_scores_bounded qWitnessRecipe
    (RecipeMetrics.mk (7/15) 1 1 0 1 (1/2) (43/60))
    (by with_unfolding_all decide)).2.2.2.2.2.2.2

/-- C7: the section 8 applyFeedback scenario (taste Hate, 50 minutes per
serving, 12 steps, 6 ingredients per serving, cleanup Heavy) from the
all-ones profile yields exactly C_taste 0.95, C_risk 1.0, C_time 0.9,
C_effort 0.8 after two independent 0.1 cuts, and C_sacrifice 0.9. -/
theorem C7_adjust_scenario :
    scoreKeys.indexOf "Hate" = 0 ∧ cleanupKeys.indexOf "Heavy" = 3 ∧
    adjust_total_time c7Recipe = 50 ∧ c7Recipe.steps.length = 12 ∧
    (c7Recipe.ingredients.length : ℚ) / (c7Recipe.servings : ℚ) = 6 ∧
    (User.adjust_coefficients {} c7Recipe "Hate" "Heavy").coefficients =
      { C_taste := 19/20, C_risk := 1, C_time := 9/10, C_effort := 4/5,
        C_sacrifice := 9/10 } := by
  refine ⟨by decide, by decide, ?_, by decide, ?_, ?_⟩
  · with_unfolding_all decide
  · with_unfolding_all decide
  · with_unfolding_all decide

/-- C8: the suggestion branch returns no pick on an empty candidate list,
returns no pick when its single candidate matches an allergy, and any pick
it does return comes from the candidate list and passed both the recency
filter and the allergy/dislike filter. -/
theorem C8_selectBest_filtering :
    (∀ (u : User) (now : ℤ), selectBest [] u now = none) ∧
    (∀ (r : Recipe) (u : User) (now : ℤ),
      r.has_allergy_or_dislike u = true → selectBest [r] u now = none) ∧
    (∀ (rs : List Recipe) (u : User) (now : ℤ) (r : Recipe),
      selectBest rs u now = some r →
      r ∈ rs ∧ recency_ok now r = true ∧
        r.has_allergy_or_dislike u = false) := by
  refine ⟨?_, ?_, ?_⟩
  · intro u now
    rfl
  · intro r u now h
    unfold selectBest
    simp [List.filter, h, maxByKey]
  · intro rs u now r h
    unfold selectBest at h
    have hmem := maxByKey_mem u _ r h
    obtain ⟨hin, hpred⟩ := List.mem_filter.mp hmem
    rw [Bool.and_eq_true] at hpred
    obtain ⟨h1, h2⟩ := hpred
    exact ⟨hin, h1, by simpa using h2⟩

/-- Witness for C8: the peanut-allergic user gets no pick from the peanut
butter recipe, and a clean single-candidate pick passes both filters. -/
theorem C8_selectBest_filtering_witness :
    selectBest [allergyRecipe] allergyUser 0 = none ∧
      (goldenRecipe ∈ [goldenRecipe] ∧ recency_ok 0 goldenRecipe = true ∧
        goldenRecipe.has_allergy_or_dislike goldenUser = false) :=
  ⟨C8_selectBest_filtering.2.1 allergyRecipe allergyUser 0
      (by with_unfolding_all decide),
    C8_selectBest_filtering.2.2 [goldenRecipe] goldenUser 0 goldenRecipe
      (by with_unfolding_all decide)⟩

/-- C9 counterexample: a JSON-LD recipe declaring zero servings passes
through extract_recipe_data with servings 0, so the scraped servings value
is not floored at 1 as the claim asserts. -/
theorem C9_counterexample :
    (extract_recipe_data (some c9Json)).map ScrapedData.servings
        = some (YieldValue.num 0) ∧
      ¬ (YieldValue.num 0).atLeastOne := by
  constructor
  · with_unfolding_all decide
  · intro h
    exact absurd h (by norm_num [YieldValue.atLeastOne])

/-- C9 as amended: servings defaults to 4 when the JSON-LD recipeYield
field is absent and when no serving-related HTML text contains a number;
when a recipeYield value is present it is passed through unchanged, with no
parsing and no floor at 1, so zero or negative scraped servings survive. -/
theorem C9_servings_default_passthrough :
    (∀ d : JsonLDRecipe, d.atType = some ("Recipe") → d.recipeYield = none →
      (extract_recipe_data (some d)).map ScrapedData.servings
        = some (YieldValue.num 4)) ∧
    (∀ (d : JsonLDRecipe) (v : YieldValue), d.atType = some ("Recipe") →
      d.recipeYield = some v →
      (extract_recipe_data (some d)).map ScrapedData.servings = some v) ∧
    (∀ texts : List String, (∀ t ∈ texts, firstNumber t.toList = none) →
      html_servings texts = 4) := by
  refine ⟨?_, ?_, ?_⟩
  · intro d h1 h2
    simp [extract_recipe_data, h1, h2]
  · intro d v h1 h2
    simp [extract_recipe_data, h1, h2]
  · intro texts h
    induction texts with
    | nil => rfl
    | cons hd tl ih =>
        unfold html_servings
        rw [h hd (List.mem_cons_self _ _)]
        exact ih (fun t ht => h t (List.mem_cons_of_mem _ ht))

/-- Witness for C9: a yield-less JSON-LD recipe gets servings 4, the
zero-servings object passes through as 0, and digit-free serving text
leaves the HTML default 4. -/
theorem C9_servings_default_passthrough_witness :
    (extract_recipe_data
        (some ({ atType := some ("Recipe") } : JsonLDRecipe))).map
      ScrapedData.servings = some (YieldValue.num 4) ∧
    (extract_recipe_data (some c9Json)).map ScrapedData.servings
      = some (YieldValue.num 0) ∧
    html_servings ["serves many"] = 4 :=
  ⟨C9_servings_default_passthrough.1 _ rfl rfl,
    C9_servings_default_passthrough.2.1 c9Json (YieldValue.num 0) rfl rfl,
    C9_servings_default_passthrough.2.2 ["serves many"]
      (by
        intro t ht
        rw [List.mem_singleton] at ht
        subst ht
        decide)⟩

/-- C10: add_feedback succeeds exactly when the taste string is one of the
seven score levels and the cleanup string one of the four cleanup levels;
on failure the recipe is unchanged (validation precedes mutation); on
success each list grows by exactly one; and equality of the two list
lengths is preserved by every call. -/
theorem C10_add_feedback_validation :
    ∀ (r : Recipe) (taste cleanup : String),
      ((r.add_feedback taste cleanup).2 = none ↔
        (taste ∈ scoreKeys ∧ cleanup ∈ cleanupKeys)) ∧
      ((r.add_feedback taste cleanup).2 ≠ none →
        (r.add_feedback taste cleanup).1 = r) ∧
      ((r.add_feedback taste cleanup).2 = none →
        (r.add_feedback taste cleanup).1.votes.length = r.votes.length + 1 ∧
        (r.add_feedback taste cleanup).1.cleanups.length
          = r.cleanups.length + 1) ∧
      (r.votes.length = r.cleanups.length →
        (r.add_feedback taste cleanup).1.votes.length
          = (r.add_feedback taste cleanup).1.cleanups.length) := by
  intro r taste cleanup
  unfold Recipe.add_feedback
  split_ifs with h1 h2
  · simp_all
  · simp_all
  · simp_all [not_not]

/-- Witness for C10: a valid Love/Light vote grows the golden recipe vote
list by one, and a bogus cleanup string leaves the recipe untouched. -/
theorem C10_add_feedback_validation_witness :
    (goldenRecipe.add_feedback "Love" "Light").1.votes.length
        = goldenRecipe.votes.length + 1 ∧
      (goldenRecipe.add_feedback "Love" "Sparkling").1 = goldenRecipe :=
  ⟨((C10_add_feedback_validation goldenRecipe "Love" "Light").2.2.1
      (by with_unfolding_all decide)).1,
    (C10_add_feedback_validation goldenRecipe "Love" "Sparkling").2.1
      (by with_unfolding_all decide)⟩
